import Mathlib

/-!
Shallow embedding of the shoulder-recovery rules engine
(`src/lib/rules-engine.ts`, staged as `src/unnamed/part_005`).

Conventions of the embedding:
- JS `number` values that the engine treats as integers (angles, pain
  scores, minutes, counts) are `ℤ` or `ℕ`; millisecond timestamps are `ℤ`
  and "now" (`new Date()` in the source) is an explicit parameter.
- `Math.floor` of an integer quotient is `Int.ediv` (`/` on `ℤ`), which is
  floor division for a positive divisor.  `Math.floor(x * 0.6)` of an
  integer `x` is embedded as `x * 3 / 5` and `Math.ceil(w * 0.6)` as
  `(3 * w + 4) / 5`: for the magnitudes the engine produces (|x| ≤ 180,
  w ≤ 6) the IEEE-double computation agrees with the exact rational one.
- Averages that the source compares against thresholds are kept as exact
  rationals (`ℚ`); for the integer pain scores involved the double
  arithmetic of the source is exact enough that the comparisons agree.
- The exercise catalog (`./exercises`, not part of the staged sources) is
  passed as explicit list parameters, so every theorem below holds for the
  repository's actual catalog whatever its contents.
- Nondeterministic cosmetic fields (`id: rehab-${Date.now()}`, the plan's
  `startDate`) are omitted: the spec declares them non-semantic.
-/

namespace ShoulderRecovery

/-- ROM self-report buckets, `'<60' | '60-90' | '90-120' | '120-150' | '150+'`. -/
inductive Bucket
  | lt60
  | b60to90
  | b90to120
  | b120to150
  | b150plus
deriving DecidableEq, Repr

/-- `SurgeryStatus = 'none' | 'planned' | 'post-op'`. -/
inductive SurgeryStatus
  | none
  | planned
  | postOp
deriving DecidableEq, Repr

/-- `ExternalRotationLimit = 'none' | 'mild' | 'moderate' | 'severe'`. -/
inductive ERLimit
  | none
  | mild
  | moderate
  | severe
deriving DecidableEq, Repr

/-- `RecoveryStage = 'acute' | 'early-rehab' | 'strengthening' | 'return-to-sport'`. -/
inductive RecoveryStage
  | acute
  | earlyRehab
  | strengthening
  | returnToSport
deriving DecidableEq, Repr

/-- `CardioType = 'run' | 'bike' | 'elliptical' | 'walk' | 'swim' | 'row'`. -/
inductive CardioType
  | run
  | bike
  | elliptical
  | walk
  | swim
  | row
deriving DecidableEq, Repr

/-- `StrengthCategory = 'legs' | 'core' | 'upper-pull' | 'upper-push' | 'full-body'`. -/
inductive StrengthCategory
  | legs
  | core
  | upperPull
  | upperPush
  | fullBody
deriving DecidableEq, Repr

/-- `GoalType` of the fitness goal. -/
inductive GoalType
  | halfMarathon
  | tenK
  | fiveK
  | generalConditioning
  | strength
  | weightLoss
  | maintainFitness
deriving DecidableEq, Repr

/-- `targetArea` of a catalog exercise. -/
inductive TargetArea
  | shoulder
  | core
  | legs
  | fullBody
deriving DecidableEq, Repr

/-- Profile `restrictions` (the free-text `painfulMovements`, never read by the
engine, is omitted). -/
structure Restrictions where
  inSling : Bool
  noRunning : Bool
  noOverhead : Bool
  maxAbductionAngle : ℤ
  maxFlexionAngle : ℤ
  externalRotationLimit : ERLimit
deriving DecidableEq, Repr

/-- `goal.cardioBaseline` (read into a local by `fitnessPlan` but never used). -/
structure CardioBaseline where
  canBikeMinutes : ℤ
  canWalkMinutes : ℤ
  canRunMinutes : ℤ
deriving DecidableEq, Repr

/-- The fitness goal; `targetDate` is an optional millisecond timestamp. -/
structure FitnessGoal where
  type : GoalType
  targetDate : Option ℤ
  daysPerWeek : ℕ
  minutesPerDay : ℤ
  cardioBaseline : CardioBaseline
deriving DecidableEq, Repr

/-- `UserProfile`: the fields the rules engine reads (ids and `updatedAt` are
omitted).  Dates are millisecond timestamps; `surgeryDate` is optional
independently of `surgeryStatus`, as in `src/types`. -/
structure UserProfile where
  injuryDate : ℤ
  surgeryStatus : SurgeryStatus
  surgeryDate : Option ℤ
  restrictions : Restrictions
  goal : FitnessGoal
  createdAt : ℤ
deriving DecidableEq, Repr

/-- `DailyLog`: the fields the rules engine reads (ids, `date`,
`behindBackReach` and the did-activity booleans are never read by the
planner functions modelled here). -/
structure DailyLog where
  pain : ℕ
  instability : ℕ
  sleepImpact : ℕ
  flexionBucket : Bucket
  abductionBucket : Bucket
  slingWorn : Bool
deriving DecidableEq, Repr

/-- A static catalog entry (`Exercise` in `src/types`); `name`, `category` and
`instructions` are omitted (the catalog is passed pre-partitioned by
category, matching the `getRehabExercises`/`getCardioExercises`/
`getStrengthExercises` accessors). -/
structure Exercise where
  id : String
  targetArea : TargetArea
  difficulty : ℕ
  requiresOverhead : Bool
  requiresShoulderLoading : Bool
  requiresExternalRotation : Bool
  minAbductionAngle : ℤ
  minFlexionAngle : ℤ
  sets : Option String
  reps : Option String
  duration : Option String
deriving DecidableEq, Repr

/-- `bucketToAngle` (rules-engine lines 20 to 29).  The source's `default: 0`
branch is unreachable here because `Bucket` has exactly the five strings. -/
def bucketToAngle : Bucket → ℤ
  | .lt60 => 30
  | .b60to90 => 75
  | .b90to120 => 105
  | .b120to150 => 135
  | .b150plus => 165

def msPerWeek : ℤ := 7 * 24 * 60 * 60 * 1000

def msPerDay : ℤ := 24 * 60 * 60 * 1000

/-- `weeksSince` (lines 32 to 37): `Math.floor((now - date) / msPerWeek)`;
`/` on `ℤ` is floor division for the positive divisor. -/
def weeksSince (now date : ℤ) : ℤ := (now - date) / msPerWeek

/-- `daysUntil` (lines 40 to 45). -/
def daysUntil (now date : ℤ) : ℤ := (date - now) / msPerDay

/-- Average pain of a log window (lines 59 to 61): mean of the pains, or the
neutral default 5 when the window is empty.  `Rat.divInt` is the exact
rational quotient `sum / length` (the window is non-empty in that branch);
it is used rather than `/` on `ℚ` only so the definition stays
kernel-computable. -/
def avgPainOf (window : List DailyLog) : ℚ :=
  if 0 < window.length then
    Rat.divInt ((window.map fun l => l.pain).sum : ℤ) (window.length : ℤ)
  else 5

/-- `latestLog ? bucketToAngle(latestLog.flexionBucket) : 30` (line 64,
also line 203 and line 358). -/
def latestFlexionOf (latestLog : Option DailyLog) : ℤ :=
  match latestLog with
  | some l => bucketToAngle l.flexionBucket
  | Option.none => 30

/-- `latestLog ? bucketToAngle(latestLog.abductionBucket) : 30` (line 65,
also line 204). -/
def latestAbductionOf (latestLog : Option DailyLog) : ℤ :=
  match latestLog with
  | some l => bucketToAngle l.abductionBucket
  | Option.none => 30

/-- `latestLog?.pain ?? 5` (line 205). -/
def currentPainOf (latestLog : Option DailyLog) : ℕ :=
  match latestLog with
  | some l => l.pain
  | Option.none => 5

/-- `currentRecoveryStage` (lines 50 to 85).  Note that line 52 tests only
whether a surgery date is present — `surgeryStatus` is never consulted —
and that line 58's `logs.slice(-7)` keeps the LAST seven array entries and
line 63 reads the LAST entry as "latest", whatever order the caller used. -/
def currentRecoveryStage (now : ℤ) (profile : UserProfile) (logs : List DailyLog) :
    RecoveryStage :=
  let weeksSinceInjury := weeksSince now profile.injuryDate
  let weeksSinceSurgery : Option ℤ := profile.surgeryDate.map (weeksSince now)
  let weeksRecovering := weeksSinceSurgery.getD weeksSinceInjury
  let recentLogs := logs.drop (logs.length - 7)
  let avgPain := avgPainOf recentLogs
  let latestLog := recentLogs.getLast?
  let latestFlexion := latestFlexionOf latestLog
  let latestAbduction := latestAbductionOf latestLog
  if weeksRecovering ≤ 2 ∨ profile.restrictions.inSling = true ∨ 7 ≤ avgPain then
    .acute
  else if weeksRecovering ≤ 6 ∨ latestFlexion < 90 ∨ latestAbduction < 90 ∨ 5 ≤ avgPain then
    .earlyRehab
  else if weeksRecovering ≤ 12 ∨ latestFlexion < 150 ∨ latestAbduction < 150 then
    .strengthening
  else
    .returnToSport

/-- `AllowedActivities` (per `src/types`). -/
structure AllowedActivities where
  cardio : List CardioType
  strength : List StrengthCategory
  canDoOverhead : Bool
  canDoHeavyCarries : Bool
  canDoPullUps : Bool
  isDeloadWeek : Bool
  notes : List String
deriving DecidableEq, Repr

/-- The deload test of `allowedActivities` (lines 97 to 101):
`latestLog !== null && (pain >= 7 || instability >= 7 || sleepImpact >= 8)`. -/
def isDeloadWeekOf (latestLog : Option DailyLog) : Bool :=
  match latestLog with
  | some l => decide (7 ≤ l.pain) || decide (7 ≤ l.instability) || decide (8 ≤ l.sleepImpact)
  | Option.none => false

/-- `allowedActivities` (lines 90 to 190).  The source pushes onto `cardio`,
`strength` and `notes` imperatively; the embedding concatenates the pushed
chunks in the same order. -/
def allowedActivities (profile : UserProfile) (latestLog : Option DailyLog) :
    AllowedActivities :=
  let r := profile.restrictions
  let isDeloadWeek := isDeloadWeekOf latestLog
  -- line 120 to 126: run allowed if not restricted, not in sling, pain manageable
  let runGate := !r.noRunning && !r.inSling
  let runPainOk :=
    match latestLog with
    | some l => decide (l.pain ≤ 5) && decide (l.instability ≤ 5)
    | Option.none => true
  -- lines 134 to 140: rowing
  let rowOk := !r.inSling && decide (60 ≤ r.maxAbductionAngle) &&
    decide (90 ≤ r.maxFlexionAngle) &&
    (match latestLog with | some l => decide (l.pain ≤ 3) | Option.none => true)
  -- lines 152 to 155
  let canDoOverhead := !r.noOverhead && decide (120 ≤ r.maxAbductionAngle) &&
    decide (120 ≤ r.maxFlexionAngle) &&
    (match latestLog with | some l => decide (l.pain ≤ 3) | Option.none => true)
  -- lines 157 to 159
  let canDoHeavyCarries := !r.inSling && decide (90 ≤ r.maxFlexionAngle) &&
    (match latestLog with | some l => decide (l.pain ≤ 4) | Option.none => true)
  -- lines 161 to 165
  let canDoPullUps := !r.inSling && decide (150 ≤ r.maxAbductionAngle) &&
    decide (150 ≤ r.maxFlexionAngle) && decide (r.externalRotationLimit = .none) &&
    (match latestLog with
     | some l => decide (l.pain ≤ 2) && decide (l.instability ≤ 2)
     | Option.none => true)
  -- lines 168 to 170: upper pulling
  let upperPullOk := !r.inSling && decide (90 ≤ r.maxAbductionAngle) &&
    (match latestLog with | some l => decide (l.pain ≤ 3) | Option.none => true)
  { cardio :=
      [CardioType.walk, CardioType.bike] ++                       -- lines 109, 112
      (if !r.inSling then [CardioType.elliptical] else []) ++     -- lines 115 to 117
      (if runGate && runPainOk then [CardioType.run] else []) ++  -- line 122
      (if 60 ≤ r.maxFlexionAngle then [CardioType.swim] else []) ++ -- lines 129 to 131
      (if rowOk then [CardioType.row] else [])                    -- line 138
    strength :=
      [StrengthCategory.legs] ++                                  -- line 144
      (if 60 ≤ r.maxFlexionAngle ∨ r.inSling = false then [StrengthCategory.core] else []) ++
      (if upperPullOk then [StrengthCategory.upperPull] else []) ++ -- line 171
      (if canDoOverhead then [StrengthCategory.upperPush] else []) -- line 177
    canDoOverhead := canDoOverhead
    canDoHeavyCarries := canDoHeavyCarries
    canDoPullUps := canDoPullUps
    isDeloadWeek := isDeloadWeek
    notes :=
      (if isDeloadWeek then ["Deload week: reduce intensity, focus on recovery"] else []) ++
      (if runGate && !runPainOk then ["Running paused due to pain/instability levels"] else []) ++
      (if rowOk then ["Light rowing only - stop if shoulder discomfort"] else []) ++
      (if upperPullOk then ["Upper body pulling: keep light, avoid overhead"] else []) ++
      (if canDoOverhead then ["Overhead pressing cleared - start light"] else []) }

/-- Leading decimal digits of a string, as JS `parseInt` reads the
catalog's digit-leading range strings; `Option.none` models `NaN`. -/
def parseLeadingNat (s : String) : Option ℕ :=
  let ds := s.toList.takeWhile Char.isDigit
  if ds.isEmpty then Option.none
  else some (ds.foldl (fun n c => 10 * n + (c.toNat - 48)) 0)

/-- `s.split('-')[0]`. -/
def firstDashPart (s : String) : String := (s.splitOn "-").headD ""

/-- `parseInt(ex.sets?.split('-')[0] || '3')` (line 262 and line 423):
a missing `sets` string, or an empty first part, falls back to `"3"`. -/
def jsSetsCount (sets : Option String) : Option ℕ :=
  let s :=
    match sets with
    | Option.none => "3"
    | some str => let p := firstDashPart str; if p = "" then "3" else p
  parseLeadingNat s

/-- `ex.reps ? parseInt(ex.reps.split('-')[0] || dflt) : undefined` (line 263
with default `"10"`, line 424 with default `"12"`); an empty `reps` string is
falsy in JS, and an unparsable one (`NaN`) is collapsed into `Option.none` —
downstream both behave alike (`we.reps || 10` is 10 for each). -/
def jsRepsCount (dflt : String) (reps : Option String) : Option ℕ :=
  match reps with
  | Option.none => Option.none
  | some str =>
    if str = "" then Option.none
    else parseLeadingNat (let p := firstDashPart str; if p = "" then dflt else p)

/-- A selected `(exercise, sets, reps | duration)` row (`WorkoutExercise` of
`src/types`); `sets`/`reps` are `Option ℕ` with `Option.none` standing for
JS `NaN`/`undefined`. -/
structure WorkoutExercise where
  exercise : Exercise
  sets : Option ℕ
  reps : Option ℕ
  duration : Option String
deriving DecidableEq, Repr

/-- Builds the `WorkoutExercise` of rehab selection (lines 259 to 266). -/
def mkRehabWE (ex : Exercise) : WorkoutExercise :=
  { exercise := ex
    sets := jsSetsCount ex.sets
    reps := jsRepsCount "10" ex.reps
    duration := ex.duration }

/-- First digit run anywhere in the string: `s.match(/(\d+)/)` (line 271). -/
def firstNumber (s : String) : Option ℕ :=
  let ds := (s.toList.dropWhile fun c => !c.isDigit).takeWhile Char.isDigit
  if ds.isEmpty then Option.none
  else some (ds.foldl (fun n c => 10 * n + (c.toNat - 48)) 0)

/-- `we.reps || 10`: JS treats 0, `NaN` and `undefined` alike as falsy. -/
def jsOrTen (reps : Option ℕ) : ℕ :=
  match reps with
  | some n => if n = 0 then 10 else n
  | Option.none => 10

/-- Estimated minutes for one selected row (lines 269 to 275); `we.sets` is
read as 0 when it models `NaN` (the claims below never read durations). -/
def weMinutes (we : WorkoutExercise) : ℚ :=
  let setsN : ℚ := we.sets.getD 0
  let repEstimate : ℚ := (setsN * (jsOrTen we.reps) * 3) / 60
  match we.duration with
  | some d =>
    if d = "" then repEstimate  -- an empty duration string is falsy in JS
    else
      match firstNumber d with
      | some m => (m : ℚ) / 60 * setsN
      | Option.none => 2
  | Option.none => repEstimate

/-- JS `Math.round`. -/
def jsRound (q : ℚ) : ℤ := ⌊q + 1 / 2⌋

/-- A rehab session (`RehabWorkout` of `src/types`); the nondeterministic
`id` is omitted. -/
structure RehabWorkout where
  name : String
  stage : RecoveryStage
  exercises : List WorkoutExercise
  totalDuration : String
  notes : Option String
deriving DecidableEq, Repr

/-- `${stage.charAt(0).toUpperCase() + stage.slice(1)}` evaluated at each of
the four stage strings (line 279). -/
def stageName : RecoveryStage → String
  | .acute => "Acute"
  | .earlyRehab => "Early-rehab"
  | .strengthening => "Strengthening"
  | .returnToSport => "Return-to-sport"

/-- The per-stage target exercise count (lines 233 to 247). -/
def exerciseCount : RecoveryStage → ℕ
  | .acute => 3
  | .earlyRehab => 4
  | .strengthening => 5
  | .returnToSport => 6

/-- `targetDiff` of the sort comparator (line 252). -/
def targetDifficulty : RecoveryStage → ℕ
  | .acute => 1
  | .earlyRehab => 2
  | _ => 3

/-- The eligibility filter of `rehabPlan` (lines 208 to 230), with each
early `return false` turned into one conjunct, in order. -/
def rehabEligible (stage : RecoveryStage) (r : Restrictions)
    (currentFlexion currentAbduction : ℤ) (currentPain : ℕ) (ex : Exercise) : Bool :=
  decide (ex.minFlexionAngle ≤ currentFlexion) &&          -- line 210
  decide (ex.minAbductionAngle ≤ currentAbduction) &&      -- line 211
  !(ex.requiresOverhead && r.noOverhead) &&                -- line 214
  !(ex.requiresOverhead && decide (currentFlexion < 120)) && -- line 215
  !(ex.requiresShoulderLoading && r.inSling) &&            -- line 218
  !(ex.requiresExternalRotation && decide (r.externalRotationLimit = .severe)) && -- line 221
  !(decide (stage = .acute) && decide (2 < ex.difficulty)) &&      -- line 225
  !(decide (stage = .earlyRehab) && decide (3 < ex.difficulty)) && -- line 226
  !(decide (6 ≤ currentPain) && decide (2 < ex.difficulty))        -- line 227

/-- Comparator of the stable sort (lines 250 to 254): ascending
`|difficulty - targetDiff|`; JS `Array.sort` is stable, as is `mergeSort`. -/
def rehabSortLE (stage : RecoveryStage) (a b : Exercise) : Bool :=
  decide (((a.difficulty : ℤ) - targetDifficulty stage).natAbs ≤
    ((b.difficulty : ℤ) - targetDifficulty stage).natAbs)

/-- `rehabPlan` (lines 195 to 285), with the rehab catalog
(`getRehabExercises()`) passed as the `rehabExercises` parameter. -/
def rehabPlan (stage : RecoveryStage) (profile : UserProfile)
    (latestLog : Option DailyLog) (rehabExercises : List Exercise) : RehabWorkout :=
  let currentFlexion := latestFlexionOf latestLog
  let currentAbduction := latestAbductionOf latestLog
  let currentPain := currentPainOf latestLog
  let filteredExercises := rehabExercises.filter
    (rehabEligible stage profile.restrictions currentFlexion currentAbduction currentPain)
  let sorted := filteredExercises.mergeSort (rehabSortLE stage)
  let selected := sorted.take (exerciseCount stage)
  let selectedExercises := selected.map mkRehabWE
  let totalMinutes : ℚ := selectedExercises.foldl (fun sum we => sum + weMinutes we) 0
  { name := stageName stage ++ " Rehab Session"
    stage := stage
    exercises := selectedExercises
    totalDuration := toString (jsRound (totalMinutes + 5)) ++ " min"
    notes := if 5 ≤ currentPain then some "Go gentle today - pain is elevated" else Option.none }

/-- `type` of a fitness workout: `'cardio'`, `'legs'` or `'core'`
(the labels `fitnessPlan` actually emits). -/
inductive FitnessWorkoutType
  | cardio
  | legs
  | core
deriving DecidableEq, Repr

/-- Session intensity, `easy` during a deload week else `moderate`. -/
inductive Intensity
  | easy
  | moderate
deriving DecidableEq, Repr

/-- A generated fitness session (`FitnessWorkout` of `src/types`); the
nondeterministic per-day `id` is omitted. -/
structure FitnessWorkout where
  name : String
  type : FitnessWorkoutType
  exercises : List WorkoutExercise
  totalDuration : String
  cardioType : Option CardioType
  intensity : Intensity
deriving DecidableEq, Repr

/-- One `{ day, fitness }` entry of the weekly plan. -/
structure DayWorkout where
  day : ℕ
  fitness : FitnessWorkout
deriving DecidableEq, Repr

/-- `WeeklyPlan` (the nominal `startDate`, taken from the wall clock, is
omitted). -/
structure WeeklyPlan where
  weekNumber : ℤ
  workouts : List DayWorkout
  totalCardioMinutes : ℤ
  totalStrengthSessions : ℕ
deriving DecidableEq, Repr

/-- The id string of a cardio type, as the catalog ids embed it. -/
def cardioId : CardioType → String
  | .run => "run"
  | .bike => "bike"
  | .elliptical => "elliptical"
  | .walk => "walk"
  | .swim => "swim"
  | .row => "row"

/-- `${primaryCardio.charAt(0).toUpperCase() + primaryCardio.slice(1)}`
evaluated at each cardio string (line 395). -/
def cardioTitle : CardioType → String
  | .run => "Run"
  | .bike => "Bike"
  | .elliptical => "Elliptical"
  | .walk => "Walk"
  | .swim => "Swim"
  | .row => "Row"

/-- JS `String.replace` with a string pattern: only the FIRST occurrence is
replaced (total for a non-empty pattern, which is all this file uses). -/
def jsReplaceFirst (s pat rep : String) : String :=
  match s.splitOn pat with
  | [] => s
  | [x] => x
  | x :: rest => x ++ rep ++ String.intercalate pat rest

/-- JS `String.includes` for a non-empty needle: `splitOn` yields at least
two parts exactly when the needle occurs. -/
def jsIncludes (s sub : String) : Bool := decide (2 ≤ (s.splitOn sub).length)

/-- The primary-cardio choice (lines 343 to 350): `'walk'` default,
overridden by the first available of run, bike, elliptical. -/
def choosePrimaryCardio (cardio : List CardioType) : CardioType :=
  if cardio.contains CardioType.run then CardioType.run
  else if cardio.contains CardioType.bike then CardioType.bike
  else if cardio.contains CardioType.elliptical then CardioType.elliptical
  else CardioType.walk

/-- Everything the day loop of `fitnessPlan` (lines 376 to 435) reads. -/
structure SchedCtx where
  wpw : ℕ
  targetCardioSessions : ℕ
  targetStrengthSessions : ℕ
  targetCardioMinutes : ℤ
  primaryCardio : CardioType
  cardioExercises : List Exercise
  strengthExercises : List Exercise
  isDeloadWeek : Bool
  minutesPerDay : ℤ

/-- The loop's mutable state: the pushed workouts and the two counters. -/
structure SchedState where
  workouts : List DayWorkout
  cardioPlanned : ℕ
  strengthPlanned : ℕ

/-- The cardio-day body (lines 388 to 409): per-session minutes, the catalog
row matching the primary cardio (else the first row), and the session;
`Option.none` when the filtered cardio catalog is empty (no push). -/
def mkCardioWorkout (ctx : SchedCtx) : Option FitnessWorkout :=
  let cardioMinutes : ℤ := ctx.targetCardioMinutes / ctx.targetCardioSessions
  match (ctx.cardioExercises.find? fun e =>
      jsIncludes e.id (cardioId ctx.primaryCardio)).orElse
      (fun _ => ctx.cardioExercises.head?) with
  | Option.none => Option.none
  | some cardioEx =>
    some
      { name := cardioTitle ctx.primaryCardio ++ " Session"
        type := .cardio
        exercises := [{ exercise := cardioEx, sets := some 1, reps := Option.none,
                        duration := some (toString cardioMinutes ++ " min") }]
        totalDuration := toString cardioMinutes ++ " min"
        cardioType := some ctx.primaryCardio
        intensity := if ctx.isDeloadWeek then .easy else .moderate }

/-- The strength-day body (lines 410 to 434): up to 3 leg plus up to 2 core
rows; `Option.none` when that selection is empty (no push). -/
def mkStrengthWorkout (ctx : SchedCtx) (day : ℕ) : Option FitnessWorkout :=
  let legExercises := (ctx.strengthExercises.filter fun e =>
    e.targetArea = TargetArea.legs).take 3
  let coreExercises := (ctx.strengthExercises.filter fun e =>
    e.targetArea = TargetArea.core).take 2
  let selectedStrength := legExercises ++ coreExercises
  if selectedStrength.isEmpty then Option.none
  else
    some
      { name := "Legs & Core"
        type := if day = 1 then .legs else .core
        exercises := selectedStrength.map fun ex =>
          { exercise := ex, sets := jsSetsCount ex.sets,
            reps := jsRepsCount "12" ex.reps, duration := ex.duration }
        totalDuration := toString (min ctx.minutesPerDay 45) ++ " min"
        cardioType := Option.none
        intensity := if ctx.isDeloadWeek then .easy else .moderate }

/-- One non-rest iteration of the day loop (lines 385 to 434). -/
def schedStep (ctx : SchedCtx) (day : ℕ) (s : SchedState) : SchedState :=
  let isCardioDay := day % 2 = 0 ∨ ctx.targetStrengthSessions ≤ s.strengthPlanned
  if isCardioDay ∧ s.cardioPlanned < ctx.targetCardioSessions then
    match mkCardioWorkout ctx with
    | some fitness =>
      { s with workouts := s.workouts ++ [{ day := day, fitness := fitness }],
               cardioPlanned := s.cardioPlanned + 1 }
    | Option.none => s
  else if s.strengthPlanned < ctx.targetStrengthSessions then
    match mkStrengthWorkout ctx day with
    | some fitness =>
      { s with workouts := s.workouts ++ [{ day := day, fitness := fitness }],
               strengthPlanned := s.strengthPlanned + 1 }
    | Option.none => s
  else s

/-- The `for (let day = 0; day < 7 && planned < workoutsPerWeek; day++)` loop
(line 381), with its unconditional `continue` on day 3 and day 6 (line 383). -/
def schedLoop (ctx : SchedCtx) : List ℕ → SchedState → SchedState
  | [], s => s
  | day :: rest, s =>
    if s.cardioPlanned + s.strengthPlanned < ctx.wpw then
      if day = 3 ∨ day = 6 then schedLoop ctx rest s
      else schedLoop ctx rest (schedStep ctx day s)
    else s

/-- The goal-driven weekly cardio-minute target (lines 307 to 336):
per-goal ramp capped, then `Math.floor(x * 0.6)` on a deload week,
embedded as `x * 3 / 5` (exact for these magnitudes). -/
def fitnessTargetCardioMinutes (now : ℤ) (profile : UserProfile)
    (latestLog : Option DailyLog) : ℤ :=
  let weekNumber := weeksSince now profile.createdAt + 1
  let base : ℤ :=
    match profile.goal.type with
    | .halfMarathon => min 180 (60 + weekNumber * 10)
    | .tenK => min 120 (45 + weekNumber * 8)
    | .fiveK => min 90 (30 + weekNumber * 6)
    | .generalConditioning => 90
    | .maintainFitness => 90
    | .strength => 60
    | .weightLoss => 150
  if (allowedActivities profile latestLog).isDeloadWeek then base * 3 / 5 else base

/-- The loop context `fitnessPlan` builds (lines 295 to 379):
`workoutsPerWeek = min(daysPerWeek, 6)`, `Math.ceil(wpw * 0.6)` cardio
sessions (embedded as `(3 * wpw + 4) / 5`, exact for `wpw ≤ 6`), the
primary cardio, and the two filtered catalogs (lines 354 to 373). -/
def fitnessCtx (now : ℤ) (profile : UserProfile) (latestLog : Option DailyLog)
    (cardioCatalog strengthCatalog : List Exercise) : SchedCtx :=
  let allowed := allowedActivities profile latestLog
  let wpw := min profile.goal.daysPerWeek 6
  let targetCardioSessions := (3 * wpw + 4) / 5
  let lf := latestFlexionOf latestLog
  { wpw := wpw
    targetCardioSessions := targetCardioSessions
    targetStrengthSessions := wpw - targetCardioSessions
    targetCardioMinutes := fitnessTargetCardioMinutes now profile latestLog
    primaryCardio := choosePrimaryCardio allowed.cardio
    cardioExercises := cardioCatalog.filter fun ex =>
      (allowed.cardio.any fun c =>
        cardioId c = jsReplaceFirst (jsReplaceFirst ex.id "-no-arms" "") "-light" "") &&
      decide (ex.minFlexionAngle ≤ lf)
    strengthExercises := strengthCatalog.filter fun ex =>
      !(decide (ex.targetArea = TargetArea.shoulder)) &&
      !(ex.requiresOverhead && !allowed.canDoOverhead) &&
      !(ex.requiresShoulderLoading && profile.restrictions.inSling) &&
      decide (ex.minFlexionAngle ≤ lf)
    isDeloadWeek := allowed.isDeloadWeek
    minutesPerDay := profile.goal.minutesPerDay }

/-- `fitnessPlan` (lines 290 to 444), with the cardio and strength catalogs
(`getCardioExercises()`, `getStrengthExercises()`) as parameters.  The
unused source locals (`baseline`, `weeksToGoal` from `daysUntil`) have no
effect on the result and are folded away; `totalCardioMinutes` reports the
target, not the sum of scheduled session minutes (line 441). -/
def fitnessPlan (now : ℤ) (profile : UserProfile) (latestLog : Option DailyLog)
    (logs : List DailyLog) (cardioCatalog strengthCatalog : List Exercise) : WeeklyPlan :=
  let _ := logs  -- the source accepts `logs` but never reads it in this function
  let final := schedLoop (fitnessCtx now profile latestLog cardioCatalog strengthCatalog)
    [0, 1, 2, 3, 4, 5, 6] { workouts := [], cardioPlanned := 0, strengthPlanned := 0 }
  { weekNumber := weeksSince now profile.createdAt + 1
    workouts := final.workouts
    totalCardioMinutes := fitnessTargetCardioMinutes now profile latestLog
    totalStrengthSessions := final.strengthPlanned }

/-- `shouldProgress` (lines 509 to 523): needs at least three logs, low
average pain over the last three, and non-decreasing flexion between the
window's first and last entry. -/
def shouldProgress (logs : List DailyLog) : Bool :=
  if logs.length < 3 then false
  else
    let recent := logs.drop (logs.length - 3)
    -- exact rational mean of the last three pains (`Rat.divInt` as in `avgPainOf`)
    let avgPain : ℚ := Rat.divInt ((recent.map fun l => l.pain).sum : ℤ) (recent.length : ℤ)
    if 3 < avgPain then false
    else
      -- recent[0] and recent[recent.length - 1]; the defaults are unreachable
      -- because `recent` always has exactly three entries here
      let oldFlexion := match recent.head? with
        | some l => bucketToAngle l.flexionBucket
        | Option.none => 0
      let newFlexion := match recent.getLast? with
        | some l => bucketToAngle l.flexionBucket
        | Option.none => 0
      decide (oldFlexion ≤ newFlexion)

/-! ### Concrete sample data

Fixed inputs used by the closed counterexample theorems and the witness
instantiations below.  Timestamps are milliseconds; `sampleNow` plays the
role of `new Date()`. -/

def sampleNow : ℤ := 100 * 86400000

/-- No active restrictions: out of the sling, full ROM allowed. -/
def openRestrictions : Restrictions :=
  { inSling := false
    noRunning := false
    noOverhead := false
    maxAbductionAngle := 180
    maxFlexionAngle := 180
    externalRotationLimit := .none }

def sampleGoal : FitnessGoal :=
  { type := .generalConditioning
    targetDate := Option.none
    daysPerWeek := 4
    minutesPerDay := 45
    cardioBaseline := { canBikeMinutes := 30, canWalkMinutes := 30, canRunMinutes := 0 } }

/-- Injury 100 days before `sampleNow`, never operated, no surgery date. -/
def sampleProfile : UserProfile :=
  { injuryDate := 0
    surgeryStatus := .none
    surgeryDate := Option.none
    restrictions := openRestrictions
    goal := sampleGoal
    createdAt := 0 }

/-- `sampleProfile` with a surgery date 93 days after the injury (7 days
before `sampleNow`) while `surgeryStatus` stays `'none'`. -/
def datedProfile : UserProfile := { sampleProfile with surgeryDate := some (93 * 86400000) }

/-- A fully recovered log entry: pain 1, both ROM buckets at `150+`. -/
def recoveredLog : DailyLog :=
  { pain := 1
    instability := 0
    sleepImpact := 0
    flexionBucket := .b150plus
    abductionBucket := .b150plus
    slingWorn := false }

/-- Pain-free, full-ROM entry (the newest log of the C2 window). -/
def freshLog : DailyLog := { recoveredLog with pain := 0 }

/-- Pain-free entry with minimal ROM (the oldest log of the C2 window). -/
def staleLog : DailyLog := { freshLog with flexionBucket := .lt60, abductionBucket := .lt60 }

/-- High-pain entry with full ROM. -/
def painfulLog : DailyLog := { recoveredLog with pain := 8 }

/-- A 14-day-capped window in the log store's date-descending order: the
pain-free `freshLog` is the most recent entry, followed by seven older
pain-8 days. -/
def descendingWindow : List DailyLog := freshLog :: List.replicate 7 painfulLog

/-- A small rehab catalog: difficulties 1 to 4, no prerequisites. -/
def sampleRehabCatalog : List Exercise :=
  [{ id := "pendulum", targetArea := .shoulder, difficulty := 1,
     requiresOverhead := false, requiresShoulderLoading := false,
     requiresExternalRotation := false, minAbductionAngle := 0, minFlexionAngle := 0,
     sets := some "2-3", reps := some "10", duration := Option.none },
   { id := "wall-slide", targetArea := .shoulder, difficulty := 2,
     requiresOverhead := false, requiresShoulderLoading := false,
     requiresExternalRotation := false, minAbductionAngle := 0, minFlexionAngle := 0,
     sets := some "3", reps := some "8-12", duration := Option.none },
   { id := "band-row", targetArea := .shoulder, difficulty := 3,
     requiresOverhead := false, requiresShoulderLoading := false,
     requiresExternalRotation := false, minAbductionAngle := 0, minFlexionAngle := 0,
     sets := some "3", reps := some "12", duration := Option.none },
   { id := "band-er", targetArea := .shoulder, difficulty := 4,
     requiresOverhead := false, requiresShoulderLoading := false,
     requiresExternalRotation := false, minAbductionAngle := 0, minFlexionAngle := 0,
     sets := some "3", reps := some "12", duration := Option.none }]

/-- A small cardio catalog. -/
def sampleCardioCatalog : List Exercise :=
  [{ id := "bike-light", targetArea := .fullBody, difficulty := 1,
     requiresOverhead := false, requiresShoulderLoading := false,
     requiresExternalRotation := false, minAbductionAngle := 0, minFlexionAngle := 0,
     sets := Option.none, reps := Option.none, duration := some "20-40 min" },
   { id := "run-easy", targetArea := .fullBody, difficulty := 2,
     requiresOverhead := false, requiresShoulderLoading := false,
     requiresExternalRotation := false, minAbductionAngle := 0, minFlexionAngle := 0,
     sets := Option.none, reps := Option.none, duration := some "20-40 min" }]

/-- A small strength catalog with a leg and a core entry. -/
def sampleStrengthCatalog : List Exercise :=
  [{ id := "squat", targetArea := .legs, difficulty := 2,
     requiresOverhead := false, requiresShoulderLoading := false,
     requiresExternalRotation := false, minAbductionAngle := 0, minFlexionAngle := 0,
     sets := some "3-4", reps := some "10", duration := Option.none },
   { id := "plank", targetArea := .core, difficulty := 2,
     requiresOverhead := false, requiresShoulderLoading := false,
     requiresExternalRotation := false, minAbductionAngle := 0, minFlexionAngle := 0,
     sets := some "3", reps := Option.none, duration := some "30-45 sec" }]

/-- `sampleProfile` with running disallowed and a half-marathon goal (the C4
scenario of the spec). -/
def noRunProfile : UserProfile :=
  { sampleProfile with
    restrictions := { openRestrictions with noRunning := true }
    goal := { sampleGoal with type := .halfMarathon } }

/-- The spec's own wording of the weekly cardio-minute target (spec §4.5
step 3), written independently of the implementation: a per-goal capped
linear ramp in the week number, then "multiply the result by 0.6 and floor
to an integer" on a deload week — here literally the rational product
`base * (3 / 5)` under `Int.floor`. -/
def targetCardioMinutesSpec (weekNumber : ℤ) (g : GoalType) (deload : Bool) : ℤ :=
  let base : ℤ :=
    match g with
    | .halfMarathon => min 180 (60 + weekNumber * 10)
    | .tenK => min 120 (45 + weekNumber * 8)
    | .fiveK => min 90 (30 + weekNumber * 6)
    | .generalConditioning => 90
    | .maintainFitness => 90
    | .strength => 60
    | .weightLoss => 150
  if deload then ⌊(base : ℚ) * (3 / 5)⌋ else base

/-- Position of a stage in the recovery order
acute → early-rehab → strengthening → return-to-sport. -/
def stageIdx : RecoveryStage → ℕ
  | .acute => 0
  | .earlyRehab => 1
  | .strengthening => 2
  | .returnToSport => 3

/-! ## Claim theorems -/

/-- The exercise rows a rehab plan carries are exactly the filtered, sorted,
truncated catalog mapped through `mkRehabWE`. -/
theorem rehabPlan_exercises_def (stage : RecoveryStage) (p : UserProfile)
    (latestLog : Option DailyLog) (cat : List Exercise) :
    (rehabPlan stage p latestLog cat).exercises =
      (((cat.filter (rehabEligible stage p.restrictions (latestFlexionOf latestLog)
        (latestAbductionOf latestLog) (currentPainOf latestLog))).mergeSort
        (rehabSortLE stage)).take (exerciseCount stage)).map mkRehabWE := rfl

/-- How many exercises a rehab plan holds: the stage's target count, clipped
by how many catalog rows survive the filter. -/
theorem rehabPlan_exercises_length (stage : RecoveryStage) (p : UserProfile)
    (latestLog : Option DailyLog) (cat : List Exercise) :
    (rehabPlan stage p latestLog cat).exercises.length =
      min (exerciseCount stage)
        (cat.filter (rehabEligible stage p.restrictions (latestFlexionOf latestLog)
          (latestAbductionOf latestLog) (currentPainOf latestLog))).length := by
  rw [rehabPlan_exercises_def, List.length_map, List.length_take, List.length_mergeSort]

/-- Relaxing the stage (in recovery order) only weakens the eligibility
filter: the stage difficulty caps are 2 (acute), 3 (early-rehab), none
afterwards. -/
theorem rehabEligible_mono {s₁ s₂ : RecoveryStage} (h : stageIdx s₁ ≤ stageIdx s₂)
    (r : Restrictions) (cf ca : ℤ) (cp : ℕ) :
    ∀ ex : Exercise, rehabEligible s₁ r cf ca cp ex = true →
      rehabEligible s₂ r cf ca cp ex = true := by
  intro ex he
  cases s₁ <;> cases s₂ <;> simp_all [rehabEligible, stageIdx]
  all_goals omega

/-- The per-stage target count grows along the recovery order. -/
theorem exerciseCount_mono {s₁ s₂ : RecoveryStage} (h : stageIdx s₁ ≤ stageIdx s₂) :
    exerciseCount s₁ ≤ exerciseCount s₂ := by
  cases s₁ <;> cases s₂ <;> simp_all [exerciseCount, stageIdx]

/-- Claim C6.  An acute rehab plan never exceeds three exercises, and with
profile and log fixed the exercise count is non-decreasing along
acute → early-rehab → strengthening → return-to-sport — for every catalog,
because relaxing the stage only enlarges the filtered set (lines 208 to 230)
while the target count grows 3, 4, 5, 6 (lines 233 to 247). -/
theorem rehabPlan_count_monotone (p : UserProfile) (latestLog : Option DailyLog)
    (cat : List Exercise) (s₁ s₂ : RecoveryStage) (h : stageIdx s₁ ≤ stageIdx s₂) :
    (rehabPlan RecoveryStage.acute p latestLog cat).exercises.length ≤ 3 ∧
    (rehabPlan s₁ p latestLog cat).exercises.length ≤
      (rehabPlan s₂ p latestLog cat).exercises.length := by
  constructor
  · rw [rehabPlan_exercises_length]
    exact min_le_left _ _
  · rw [rehabPlan_exercises_length, rehabPlan_exercises_length]
    exact min_le_min (exerciseCount_mono h)
      (List.Sublist.length_le (List.monotone_filter_right cat (rehabEligible_mono h _ _ _ _)))

/-- Claim C6, witness: with the sample catalog and profile, the acute plan
has at most 3 exercises and the acute count is at most the
return-to-sport count. -/
theorem rehabPlan_count_monotone_witness :
    stageIdx RecoveryStage.acute ≤ stageIdx RecoveryStage.returnToSport ∧
    ((rehabPlan RecoveryStage.acute sampleProfile (some recoveredLog)
        sampleRehabCatalog).exercises.length ≤ 3 ∧
      (rehabPlan RecoveryStage.acute sampleProfile (some recoveredLog)
          sampleRehabCatalog).exercises.length ≤
        (rehabPlan RecoveryStage.returnToSport sampleProfile (some recoveredLog)
          sampleRehabCatalog).exercises.length) :=
  ⟨by decide,
    rehabPlan_count_monotone sampleProfile (some recoveredLog) sampleRehabCatalog
      RecoveryStage.acute RecoveryStage.returnToSport (by decide)⟩

/-- Claim C7.  Whenever the latest log reports pain at least 6, every
exercise a rehab plan selects has difficulty at most 2, independent of the
stage: the pain cap of line 227 applies before selection, and selection
only draws from the filtered set. -/
theorem rehabPlan_caps_difficulty_when_pain_high (stage : RecoveryStage)
    (p : UserProfile) (l : DailyLog) (cat : List Exercise) (h : 6 ≤ l.pain) :
    ∀ we ∈ (rehabPlan stage p (some l) cat).exercises, we.exercise.difficulty ≤ 2 := by
  intro we hwe
  rw [rehabPlan_exercises_def] at hwe
  obtain ⟨ex, hex, rfl⟩ := List.mem_map.mp hwe
  have hex2 : ex ∈ cat.filter (rehabEligible stage p.restrictions
      (latestFlexionOf (some l)) (latestAbductionOf (some l)) (currentPainOf (some l))) :=
    List.mem_mergeSort.mp (List.take_subset _ _ hex)
  have helig := (List.mem_filter.mp hex2).2
  simp only [rehabEligible, Bool.and_eq_true, Bool.not_eq_true', Bool.and_eq_false_iff,
    decide_eq_true_eq, decide_eq_false_iff_not] at helig
  have hpain := helig.2
  show ex.difficulty ≤ 2
  rcases hpain with hp | hd
  · exact absurd h hp
  · omega

/-- Claim C7, witness: a pain-6 log forces difficulty ≤ 2 in a
return-to-sport plan over the sample catalog. -/
theorem rehabPlan_caps_difficulty_witness :
    6 ≤ ({ recoveredLog with pain := 6 } : DailyLog).pain ∧
    ∀ we ∈ (rehabPlan RecoveryStage.returnToSport sampleProfile
        (some { recoveredLog with pain := 6 }) sampleRehabCatalog).exercises,
      we.exercise.difficulty ≤ 2 :=
  ⟨by decide,
    rehabPlan_caps_difficulty_when_pain_high RecoveryStage.returnToSport sampleProfile
      { recoveredLog with pain := 6 } sampleRehabCatalog (by decide)⟩

/-- Claim C1.  The claim says the weeks-recovering anchor is the surgery date
only when `surgeryStatus` is post-op, so that for a non-post-op profile the
presence of a surgery date cannot change the returned stage.  The code
(line 52, line 55) keys on the mere presence of `surgeryDate` and never reads
`surgeryStatus` — contradicting its own comment on line 54 ("Use surgery
date if post-op, otherwise injury date").  Here `datedProfile` has
`surgeryStatus = 'none'`, an injury 100 days old and a surgery date 7 days
old; with a recovered log the code returns `acute`, while deleting the
surgery date — which the claim says cannot matter — yields
`return-to-sport`. -/
theorem currentRecoveryStage_uses_surgery_date_of_non_postop :
    datedProfile.surgeryStatus = SurgeryStatus.none ∧
    currentRecoveryStage sampleNow datedProfile [recoveredLog] = RecoveryStage.acute ∧
    currentRecoveryStage sampleNow
      { datedProfile with surgeryDate := Option.none } [recoveredLog] =
      RecoveryStage.returnToSport := by
  decide

/-- Claim C2.  The claim says that on a date-descending window the classifier
averages the (at most) 7 most recent logs and reads ROM from the most recent
log.  The code instead keeps the LAST seven array entries (`logs.slice(-7)`,
line 58) and reads the LAST entry as "latest" (line 63) — on descending
input these are the oldest entries.  With a 2-entry descending window
(newest pain-free at full ROM, oldest at minimal ROM) the code reads ROM 30°
from the oldest entry and returns `early-rehab`; the same logs oldest-first
give `return-to-sport`, the result the claim requires.  With the 8-entry
descending window the averaged pains are the seven oldest (all 8), forcing
`acute`, while the same window oldest-first averages the seven newest
(mean 48/7 < 7) and gives `early-rehab`. -/
theorem currentRecoveryStage_reads_oldest_of_descending_window :
    currentRecoveryStage sampleNow sampleProfile [freshLog, staleLog] =
      RecoveryStage.earlyRehab ∧
    currentRecoveryStage sampleNow sampleProfile [staleLog, freshLog] =
      RecoveryStage.returnToSport ∧
    currentRecoveryStage sampleNow sampleProfile descendingWindow = RecoveryStage.acute ∧
    currentRecoveryStage sampleNow sampleProfile descendingWindow.reverse =
      RecoveryStage.earlyRehab := by
  decide

/-- Claim C3.  `isDeloadWeek` is true exactly when the present latest log has
pain ≥ 7, instability ≥ 7 or sleep impact ≥ 8 (lines 97 to 101); when true,
the deload note is pushed before every other note (lines 103 to 105) and so
heads the notes list; a missing latest log never triggers a deload. -/
theorem allowedActivities_isDeloadWeek_spec (p : UserProfile) (l : DailyLog) :
    ((allowedActivities p (some l)).isDeloadWeek = true ↔
      7 ≤ l.pain ∨ 7 ≤ l.instability ∨ 8 ≤ l.sleepImpact) ∧
    ((allowedActivities p (some l)).isDeloadWeek = true →
      (allowedActivities p (some l)).notes.head? =
        some "Deload week: reduce intensity, focus on recovery") ∧
    (allowedActivities p Option.none).isDeloadWeek = false := by
  refine ⟨?_, ?_, rfl⟩
  · show isDeloadWeekOf (some l) = true ↔ _
    simp [isDeloadWeekOf, or_assoc]
  · intro h
    have hd : isDeloadWeekOf (some l) = true := h
    simp [allowedActivities, hd]

/-- Claim C8.  `shouldProgress` is false on fewer than three logs; on a list
ending in the three entries `a, b, c` (in the order given) it is true
exactly when their pain sum is at most 9 — i.e. their average is at most
3 — and the bucket angle of the last entry's flexion is at least that of
the first entry's (lines 509 to 523). -/
theorem shouldProgress_spec (logs pre : List DailyLog) (a b c : DailyLog) :
    (logs.length < 3 → shouldProgress logs = false) ∧
    (logs = pre ++ [a, b, c] →
      shouldProgress logs =
        (decide (a.pain + b.pain + c.pain ≤ 9) &&
         decide (bucketToAngle a.flexionBucket ≤ bucketToAngle c.flexionBucket))) := by
  constructor
  · intro h
    simp [shouldProgress, h]
  · rintro rfl
    have hlen : (pre ++ [a, b, c]).length = pre.length + 3 := by simp
    have hlt : ¬ ((pre ++ [a, b, c]).length < 3) := by omega
    have hdrop : (pre ++ [a, b, c]).drop ((pre ++ [a, b, c]).length - 3) = [a, b, c] := by
      rw [hlen, Nat.add_sub_cancel]
      exact List.drop_left pre [a, b, c]
    have havg : ∀ s : ℕ, ((3 : ℚ) < Rat.divInt (s : ℤ) 3 ↔ 9 < s) := by
      intro s
      rw [Rat.divInt_eq_div]
      push_cast
      rw [lt_div_iff₀ (by norm_num)]
      norm_num
    simp only [shouldProgress, hlt, if_false, hdrop, List.map_cons, List.map_nil,
      List.sum_cons, List.sum_nil, List.length_cons, List.length_nil]
    have hsum : ((a.pain : ℤ) + ((b.pain : ℤ) + ((c.pain : ℤ) + 0))) =
        ((a.pain + b.pain + c.pain : ℕ) : ℤ) := by push_cast; ring
    have hlen3 : (((0 + 1 + 1 + 1 : ℕ)) : ℤ) = (3 : ℤ) := by norm_num
    rw [hsum, hlen3]
    by_cases h9 : a.pain + b.pain + c.pain ≤ 9
    · rw [if_neg (by rw [havg]; omega)]
      simp [h9, List.getLast?]
    · rw [if_pos (by rw [havg]; omega)]
      simp [h9]

/-- `'bike'` is pushed unconditionally (line 112), so it is in every
permitted-cardio list. -/
theorem bike_mem_allowed_cardio (p : UserProfile) (latestLog : Option DailyLog) :
    CardioType.bike ∈ (allowedActivities p latestLog).cardio := by
  simp [allowedActivities]

/-- With `noRunning` set, `'run'` is never pushed (line 120). -/
theorem run_not_mem_allowed_cardio (p : UserProfile) (latestLog : Option DailyLog)
    (h : p.restrictions.noRunning = true) :
    CardioType.run ∉ (allowedActivities p latestLog).cardio := by
  simp only [allowedActivities, h, Bool.not_true, Bool.false_and, Bool.false_eq_true,
    if_false, List.mem_append, List.append_nil]
  intro hmem
  rcases hmem with ((hmem | hmem) | hmem) | hmem
  · simp at hmem
  · split at hmem <;> simp_all
  · split at hmem <;> simp_all
  · split at hmem <;> simp_all

/-- When `'run'` is unavailable the primary cardio is never `'run'`. -/
theorem choosePrimaryCardio_ne_run {cardio : List CardioType}
    (h : CardioType.run ∉ cardio) : choosePrimaryCardio cardio ≠ CardioType.run := by
  unfold choosePrimaryCardio
  split_ifs with h1 h2 h3 <;> simp_all

/-- When `'bike'` is available the primary cardio is `'run'` or `'bike'`:
the elliptical and walk fallbacks of lines 343 to 350 cannot be reached. -/
theorem choosePrimaryCardio_run_or_bike {cardio : List CardioType}
    (h : CardioType.bike ∈ cardio) :
    choosePrimaryCardio cardio = CardioType.run ∨
      choosePrimaryCardio cardio = CardioType.bike := by
  unfold choosePrimaryCardio
  split_ifs with h1 h2 h3 <;> simp_all

/-- A pushed cardio session is typed `'cardio'` and carries the primary
cardio as its `cardioType` (lines 393 to 405). -/
theorem mkCardioWorkout_spec (ctx : SchedCtx) (f : FitnessWorkout)
    (h : mkCardioWorkout ctx = some f) :
    f.type = FitnessWorkoutType.cardio ∧ f.cardioType = some ctx.primaryCardio := by
  unfold mkCardioWorkout at h
  split at h
  · exact absurd h (by simp)
  · simp only [Option.some.injEq] at h
    subst h
    exact ⟨rfl, rfl⟩

/-- A pushed strength session is typed `'legs'` or `'core'`, never
`'cardio'` (line 420). -/
theorem mkStrengthWorkout_type_ne_cardio (ctx : SchedCtx) (day : ℕ) (f : FitnessWorkout)
    (h : mkStrengthWorkout ctx day = some f) : f.type ≠ FitnessWorkoutType.cardio := by
  unfold mkStrengthWorkout at h
  dsimp only at h
  split at h
  · exact absurd h (by simp)
  · simp only [Option.some.injEq] at h
    subst h
    show (if day = 1 then FitnessWorkoutType.legs else FitnessWorkoutType.core) ≠ _
    split <;> simp

/-- One loop iteration appends at most one workout, stamped with the current
day, and any cardio session it appends carries the primary cardio. -/
theorem schedStep_spec (ctx : SchedCtx) (day : ℕ) (s : SchedState) :
    ∃ t : List DayWorkout,
      (schedStep ctx day s).workouts = s.workouts ++ t ∧ t.length ≤ 1 ∧
      ∀ w ∈ t, w.day = day ∧
        (w.fitness.type = FitnessWorkoutType.cardio →
          w.fitness.cardioType = some ctx.primaryCardio) := by
  unfold schedStep
  dsimp only
  by_cases hA : (day % 2 = 0 ∨ ctx.targetStrengthSessions ≤ s.strengthPlanned) ∧
      s.cardioPlanned < ctx.targetCardioSessions
  · rw [if_pos hA]
    cases hm : mkCardioWorkout ctx with
    | none => exact ⟨[], by simp, by simp, by simp⟩
    | some f =>
      refine ⟨[{ day := day, fitness := f }], by simp, by simp, ?_⟩
      intro w hw
      rw [List.mem_singleton] at hw
      subst hw
      exact ⟨rfl, fun _ => (mkCardioWorkout_spec ctx f hm).2⟩
  · rw [if_neg hA]
    by_cases hB : s.strengthPlanned < ctx.targetStrengthSessions
    · rw [if_pos hB]
      cases hm : mkStrengthWorkout ctx day with
      | none => exact ⟨[], by simp, by simp, by simp⟩
      | some f =>
        refine ⟨[{ day := day, fitness := f }], by simp, by simp, ?_⟩
        intro w hw
        rw [List.mem_singleton] at hw
        subst hw
        exact ⟨rfl, fun hc => absurd hc (mkStrengthWorkout_type_ne_cardio ctx day f hm)⟩
    · rw [if_neg hB]
      exact ⟨[], by simp, by simp, by simp⟩

/-- What the day loop appends over any day list: at most one workout per
non-rest day, none on day 3 or day 6, cardio sessions carrying the primary
cardio, and strictly increasing day stamps when the day list increases. -/
theorem schedLoop_spec (ctx : SchedCtx) :
    ∀ (days : List ℕ) (s : SchedState),
      ∃ t : List DayWorkout,
        (schedLoop ctx days s).workouts = s.workouts ++ t ∧
        t.length ≤ (days.filter fun d => decide ¬(d = 3 ∨ d = 6)).length ∧
        (∀ w ∈ t, w.day ∈ days ∧ ¬(w.day = 3 ∨ w.day = 6) ∧
          (w.fitness.type = FitnessWorkoutType.cardio →
            w.fitness.cardioType = some ctx.primaryCardio)) ∧
        (days.Pairwise (· < ·) → (t.map fun w => w.day).Pairwise (· < ·))
  | [], s => ⟨[], by simp [schedLoop], by simp, by simp, by simp⟩
  | day :: rest, s => by
    rw [schedLoop]
    split_ifs with hq hd
    · -- quota open, rest day: skip
      obtain ⟨t, h1, h2, h3, h4⟩ := schedLoop_spec ctx rest s
      refine ⟨t, h1, ?_, ?_, ?_⟩
      · rw [List.filter_cons_of_neg (by rcases hd with h | h <;> simp [h])]
        exact h2
      · intro w hw
        obtain ⟨ha, hb, hc⟩ := h3 w hw
        exact ⟨List.mem_cons_of_mem _ ha, hb, hc⟩
      · intro hp
        exact h4 (List.pairwise_cons.mp hp).2
    · -- quota open, working day
      obtain ⟨t0, g1, g2, g3⟩ := schedStep_spec ctx day s
      obtain ⟨t1, h1, h2, h3, h4⟩ := schedLoop_spec ctx rest (schedStep ctx day s)
      refine ⟨t0 ++ t1, ?_, ?_, ?_, ?_⟩
      · rw [h1, g1, List.append_assoc]
      · rw [List.filter_cons_of_pos (by simpa using hd), List.length_append,
          List.length_cons]
        omega
      · intro w hw
        rcases List.mem_append.mp hw with hw0 | hw1
        · obtain ⟨hday, hcard⟩ := g3 w hw0
          rw [hday]
          exact ⟨List.mem_cons_self day rest, hd, hcard⟩
        · obtain ⟨ha, hb, hc⟩ := h3 w hw1
          exact ⟨List.mem_cons_of_mem _ ha, hb, hc⟩
      · intro hp
        obtain ⟨hlt, hrest⟩ := List.pairwise_cons.mp hp
        rw [List.map_append]
        apply List.pairwise_append.mpr
        refine ⟨?_, h4 hrest, ?_⟩
        · match t0, g2 with
          | [], _ => simp
          | [w], _ => simp
        · intro x hx y hy
          obtain ⟨w0, hw0, rfl⟩ := List.mem_map.mp hx
          obtain ⟨w1, hw1, rfl⟩ := List.mem_map.mp hy
          rw [(g3 w0 hw0).1]
          exact hlt _ (h3 w1 hw1).1
    · exact ⟨[], by simp, by simp, by simp, by simp⟩

/-- The weekly plan's workouts are exactly what the day loop produces from
the empty state over days 0..6. -/
theorem fitnessPlan_workouts_eq (now : ℤ) (p : UserProfile) (latestLog : Option DailyLog)
    (logs : List DailyLog) (cc sc : List Exercise) :
    (fitnessPlan now p latestLog logs cc sc).workouts =
      (schedLoop (fitnessCtx now p latestLog cc sc) [0, 1, 2, 3, 4, 5, 6]
        { workouts := [], cardioPlanned := 0, strengthPlanned := 0 }).workouts := rfl

/-- Claim C9.  The scheduler skips day 3 and day 6 unconditionally and pushes
at most one workout on each remaining day, so a weekly plan holds at most 5
workouts, none on day 3 or 6, with pairwise-distinct days — in particular a
`daysPerWeek = 6` request (`workoutsPerWeek = 6`) can never be filled. -/
theorem fitnessPlan_at_most_five_workouts (now : ℤ) (p : UserProfile)
    (latestLog : Option DailyLog) (logs : List DailyLog) (cc sc : List Exercise) :
    (fitnessPlan now p latestLog logs cc sc).workouts.length ≤ 5 ∧
    (∀ w ∈ (fitnessPlan now p latestLog logs cc sc).workouts, w.day ≠ 3 ∧ w.day ≠ 6) ∧
    ((fitnessPlan now p latestLog logs cc sc).workouts.map fun w => w.day).Nodup := by
  obtain ⟨t, h1, h2, h3, h4⟩ := schedLoop_spec (fitnessCtx now p latestLog cc sc)
    [0, 1, 2, 3, 4, 5, 6] { workouts := [], cardioPlanned := 0, strengthPlanned := 0 }
  have hw : (fitnessPlan now p latestLog logs cc sc).workouts = t := by
    rw [fitnessPlan_workouts_eq, h1]
    simp
  rw [hw]
  refine ⟨?_, ?_, ?_⟩
  · have h5 : (([0, 1, 2, 3, 4, 5, 6] : List ℕ).filter
        fun d => decide ¬(d = 3 ∨ d = 6)).length = 5 := by decide
    omega
  · intro w hwm
    obtain ⟨_, hb, _⟩ := h3 w hwm
    exact ⟨fun hh => hb (Or.inl hh), fun hh => hb (Or.inr hh)⟩
  · exact List.Pairwise.imp (fun hlt => Nat.ne_of_lt hlt) (h4 (by decide))

/-- Claim C4.  With `noRunning` set, `'run'` is never a permitted cardio
type, and every cardio session of the weekly plan carries a cardio type
other than `'run'` (it is the primary cardio, which is then never
`'run'`). -/
theorem fitnessPlan_respects_noRunning (now : ℤ) (p : UserProfile)
    (latestLog : Option DailyLog) (logs : List DailyLog) (cc sc : List Exercise)
    (h : p.restrictions.noRunning = true) :
    CardioType.run ∉ (allowedActivities p latestLog).cardio ∧
    ∀ w ∈ (fitnessPlan now p latestLog logs cc sc).workouts,
      w.fitness.type = FitnessWorkoutType.cardio →
        w.fitness.cardioType ≠ some CardioType.run := by
  have hrun := run_not_mem_allowed_cardio p latestLog h
  refine ⟨hrun, ?_⟩
  obtain ⟨t, h1, h2, h3, h4⟩ := schedLoop_spec (fitnessCtx now p latestLog cc sc)
    [0, 1, 2, 3, 4, 5, 6] { workouts := [], cardioPlanned := 0, strengthPlanned := 0 }
  have hw : (fitnessPlan now p latestLog logs cc sc).workouts = t := by
    rw [fitnessPlan_workouts_eq, h1]
    simp
  rw [hw]
  intro w hwm hc
  rw [(h3 w hwm).2.2 hc,
    show (fitnessCtx now p latestLog cc sc).primaryCardio =
      choosePrimaryCardio (allowedActivities p latestLog).cardio from rfl]
  simpa using choosePrimaryCardio_ne_run hrun

/-- Claim C4, witness: the no-running half-marathon profile gets no `'run'`
in its permitted cardio and no run session in its plan over the sample
catalogs. -/
theorem fitnessPlan_respects_noRunning_witness :
    noRunProfile.restrictions.noRunning = true ∧
    (CardioType.run ∉ (allowedActivities noRunProfile (some recoveredLog)).cardio ∧
      ∀ w ∈ (fitnessPlan sampleNow noRunProfile (some recoveredLog) [recoveredLog]
          sampleCardioCatalog sampleStrengthCatalog).workouts,
        w.fitness.type = FitnessWorkoutType.cardio →
          w.fitness.cardioType ≠ some CardioType.run) :=
  ⟨rfl, fitnessPlan_respects_noRunning sampleNow noRunProfile (some recoveredLog)
    [recoveredLog] sampleCardioCatalog sampleStrengthCatalog rfl⟩

/-- Claim C10.  Since `'bike'` (like `'walk'`) is always permitted, the
primary cardio is always `'run'` or `'bike'` — the elliptical and walk
fallback branches are dead — and hence every scheduled cardio session has
cardio type `'run'` or `'bike'`. -/
theorem fitnessPlan_primary_cardio_run_or_bike (now : ℤ) (p : UserProfile)
    (latestLog : Option DailyLog) (logs : List DailyLog) (cc sc : List Exercise) :
    (choosePrimaryCardio (allowedActivities p latestLog).cardio = CardioType.run ∨
      choosePrimaryCardio (allowedActivities p latestLog).cardio = CardioType.bike) ∧
    ∀ w ∈ (fitnessPlan now p latestLog logs cc sc).workouts,
      w.fitness.type = FitnessWorkoutType.cardio →
        (w.fitness.cardioType = some CardioType.run ∨
          w.fitness.cardioType = some CardioType.bike) := by
  have hb := choosePrimaryCardio_run_or_bike (bike_mem_allowed_cardio p latestLog)
  refine ⟨hb, ?_⟩
  obtain ⟨t, h1, h2, h3, h4⟩ := schedLoop_spec (fitnessCtx now p latestLog cc sc)
    [0, 1, 2, 3, 4, 5, 6] { workouts := [], cardioPlanned := 0, strengthPlanned := 0 }
  have hw : (fitnessPlan now p latestLog logs cc sc).workouts = t := by
    rw [fitnessPlan_workouts_eq, h1]
    simp
  rw [hw]
  intro w hwm hc
  rw [(h3 w hwm).2.2 hc,
    show (fitnessCtx now p latestLog cc sc).primaryCardio =
      choosePrimaryCardio (allowedActivities p latestLog).cardio from rfl]
  rcases hb with hbb | hbb <;> rw [hbb] <;> simp

/-- Floor of the 0.6 multiple, as integer division by 5. -/
theorem int_mul_three_div_five_eq_floor (t : ℤ) : t * 3 / 5 = ⌊(t : ℚ) * (3 / 5)⌋ := by
  rw [show ((t : ℚ) * (3 / 5)) = (((t * 3 : ℤ) : ℚ) / ((5 : ℕ) : ℚ)) from by push_cast; ring,
    Rat.floor_intCast_div_natCast]
  norm_num

/-- Claim C5.  The reported `totalCardioMinutes` equals the spec's
goal-driven target at `weekNumber = weeksSince(createdAt) + 1`, with the
0.6 deload multiplier floored — and is thus the target itself, not a sum of
scheduled session minutes. -/
theorem fitnessPlan_totalCardioMinutes_target (now : ℤ) (p : UserProfile)
    (latestLog : Option DailyLog) (logs : List DailyLog) (cc sc : List Exercise) :
    (fitnessPlan now p latestLog logs cc sc).totalCardioMinutes =
      targetCardioMinutesSpec (weeksSince now p.createdAt + 1) p.goal.type
        (allowedActivities p latestLog).isDeloadWeek := by
  show fitnessTargetCardioMinutes now p latestLog = _
  unfold fitnessTargetCardioMinutes targetCardioMinutesSpec
  dsimp only
  cases hd : (allowedActivities p latestLog).isDeloadWeek <;> simp [hd]
  exact int_mul_three_div_five_eq_floor _

end ShoulderRecovery
